import Mathlib

/-!
Verification of the webhook event ingestion and call-state reconciliation
pipeline of the CRM-AI repository (`src/webhooks/events.py`,
`src/webhooks/handlers.py`, `src/monitoring/metrics.py`,
`src/monitoring/collectors.py`, `src/database/connection.py`,
`src/database/models.py`, `src/validation/phone_validator.py`).

The Python source is shallowly embedded: each handler of
`WebhookEventProcessor` becomes a pure function from an explicit store state
to a new store state plus the handler's boolean result.  Timestamps are
modelled as integer seconds.  Python truthiness of optional strings
(`None` and the empty string are falsy) is modelled explicitly, as is the
fact that `validate_phone_number` returns a non-empty dict (always truthy).

The source assigns a wall-clock bookkeeping attribute `updated_at` inside
several handlers; `updated_at` is not a column of the `CallLog` model in
`database/models.py` (and not a field of the spec's CallRecord data model),
so it is not part of the embedded record.
-/

namespace CrmAI

/-- Result dict of `PhoneValidator.validate_phone_number`
(`src/validation/phone_validator.py`). The source builds an 11-key dict;
the keys not used by any claim (carrier, location, timezone, number type,
national/international formats, country code, region) are omitted.  What
matters for the embedding is that the returned value is a dict, hence
always truthy in Python. -/
structure PhoneValidationResult where
  is_valid : Bool
  formatted_e164 : Option String
  error : Option String
deriving DecidableEq, Repr

/-- Value stored in a string-ish Python variable: absent (`None`), a string,
or — after the assignment `customer_phone = validated_phone` in
`_handle_call_initiated` — the whole validation-result dict. -/
inductive PyVal where
  | none
  | str (s : String)
  | vdict (r : PhoneValidationResult)
deriving DecidableEq, Repr

/-- Python truthiness of an optional string: `None` and `""` are falsy. -/
def strTruthy : Option String → Bool
  | Option.none => false
  | Option.some s => !(s = "")

/-- Python `a or b` on two optional strings (`data.get(x) or data.get(y)`):
returns `b` exactly when `a` is falsy. -/
def pyOr (a b : Option String) : Option String :=
  match a with
  | Option.none => b
  | Option.some s => if s = "" then b else Option.some s

/-- Python truthiness of a `PyVal`: a dict is always truthy (the validation
result dict is never empty). -/
def PyVal.truthy : PyVal → Bool
  | PyVal.none => false
  | PyVal.str s => !(s = "")
  | PyVal.vdict _ => true

/-- Fields read out of `event.data` by the handlers in
`src/webhooks/events.py` (`data.get(...)` accesses). -/
structure EventData where
  customer_phone : Option String
  toNumber : Option String
  customer_name : Option String
  customer_email : Option String
  customer_query : Option String
  query : Option String
  room_name : Option String
  dispatch_id : Option String
  error : Option String
  recording_url : Option String
  duration : Option Int
  transcript_url : Option String
deriving DecidableEq, Repr

/-- Event data with every key absent. -/
def EventData.empty : EventData :=
  ⟨Option.none, Option.none, Option.none, Option.none, Option.none, Option.none,
   Option.none, Option.none, Option.none, Option.none, Option.none, Option.none⟩

/-- The `WebhookEvent` dataclass of `src/webhooks/events.py`: the canonical
event produced by `_parse_webhook_event`. -/
structure WebhookEvent where
  event_type : String
  call_id : String
  timestamp : Int
  data : EventData
  source : String
deriving DecidableEq, Repr

/-- The `CallLog` record as manipulated by the handlers: the columns of
`database/models.py` together with the attributes the handlers assign
(`duration`, `recording_url`, `recording_duration`, `transcript_url`,
`error_details`). -/
structure CallLog where
  call_id : String
  room_name : Option String
  dispatch_id : Option String
  customer_name : Option String
  customer_phone : PyVal
  customer_email : Option String
  customer_query : Option String
  status : String
  call_started_at : Option Int
  call_connected_at : Option Int
  call_ended_at : Option Int
  duration : Option Int
  recording_url : Option String
  recording_duration : Option Int
  transcript_url : Option String
  error_details : Option String
deriving DecidableEq, Repr

/-- The `Customer` record of `database/models.py` (key fields only). -/
structure Customer where
  name : Option String
  phone : PyVal
  email : Option String
deriving DecidableEq, Repr

/-- The `CallEvent` row of `database/models.py`: the append-only audit
entry (the spec's CallEventLogEntry). -/
structure CallEvent where
  call_id : String
  event_type : String
  event_data : EventData
deriving DecidableEq, Repr

/-- The inbound `WebhookLog` row written by `_log_webhook` (the raw-payload
log, distinct from the per-call `CallEvent` audit trail). -/
structure InboundLogEntry where
  source : String
  success : Option Bool
deriving DecidableEq, Repr

/-- Durable store state: call records, customers, the append-only
`CallEvent` audit log, and the inbound webhook log. -/
structure Store where
  calls : List CallLog
  customers : List Customer
  events : List CallEvent
  inbound : List InboundLogEntry
deriving DecidableEq, Repr

/-- Store with no rows. -/
def Store.empty : Store := ⟨[], [], [], []⟩

/-- Lookup `db.query(CallLog).filter(CallLog.call_id == event.call_id).first()`. -/
def findCall (s : Store) (cid : String) : Option CallLog :=
  s.calls.find? (fun c => c.call_id = cid)

/-- Mutation of the first record matching a `call_id`, as done on the ORM
object returned by `.first()`. -/
def updateFirstCall (cid : String) (f : CallLog → CallLog) : List CallLog → List CallLog
  | [] => []
  | c :: rest => if c.call_id = cid then f c :: rest else c :: updateFirstCall cid f rest

/-- Audit entry appended for one event (`CallEvent(... event.event_type,
event.data)`; the `call_log_id` / `call_id` link is the call id). -/
def callEventEntry (e : WebhookEvent) : CallEvent :=
  ⟨e.call_id, e.event_type, e.data⟩

/-- Customer update applied when the phone is already present, from
`get_or_create_customer` in `src/database/connection.py`: the name is
replaced when different, the email only when the new email is truthy. -/
def customerUpdate (name : Option String) (email : Option String) (c : Customer) : Customer :=
  { c with name := name, email := if strTruthy email then email else c.email }

/-- Modelled from the spec: `self._upsert_customer(db, name, phone, email)`
is called by `_handle_call_initiated` but `_upsert_customer` is defined
nowhere in the repository.  Modelled after the store collaborator's
`upsert_customer(name, phone, email)` (spec section 6) whose semantics the
repository realizes in `get_or_create_customer`
(`src/database/connection.py`): find the first customer with this phone;
create one if absent, otherwise update name/email in place. -/
def upsertCustomer (name : Option String) (phone : PyVal) (email : Option String) :
    List Customer → List Customer
  | [] => [⟨name, phone, email⟩]
  | c :: rest =>
    if c.phone = phone then customerUpdate name email c :: rest
    else c :: upsertCustomer name phone email rest

/-- Record-field update performed by `_handle_call_initiated` when the call
record already exists. -/
def initiatedUpdate (e : WebhookEvent) (c : CallLog) : CallLog :=
  { c with status := "initiated", call_started_at := Option.some e.timestamp }

/-- Fresh record created by `_handle_call_initiated` when no record with
this `call_id` exists. -/
def initiatedRecord (e : WebhookEvent) (phone : PyVal) : CallLog where
  call_id := e.call_id
  room_name := e.data.room_name
  dispatch_id := e.data.dispatch_id
  customer_name := e.data.customer_name
  customer_phone := phone
  customer_email := e.data.customer_email
  customer_query := pyOr e.data.customer_query e.data.query
  status := "initiated"
  call_started_at := Option.some e.timestamp
  call_connected_at := Option.none
  call_ended_at := Option.none
  duration := Option.none
  recording_url := Option.none
  recording_duration := Option.none
  transcript_url := Option.none
  error_details := Option.none

/-- The phone value held by the local variable `customer_phone` after the
validation block of `_handle_call_initiated`:

  customer_phone = data.get(customer_phone) or data.get(to)
  if customer_phone:
      validated_phone = validate_phone_number(customer_phone)
      if validated_phone:
          customer_phone = validated_phone

`validate_phone_number` returns a dict, which is always truthy, so whenever
the original phone is truthy the variable ends up holding the whole
validation-result dict. -/
def initiatedPhone (validate : String → PhoneValidationResult) (e : WebhookEvent) : PyVal :=
  match pyOr e.data.customer_phone e.data.toNumber with
  | Option.none => PyVal.none
  | Option.some p => if p = "" then PyVal.str p else PyVal.vdict (validate p)

/-- Embedding of `_handle_call_initiated` (`src/webhooks/events.py`
lines 163-218).  The phone-validation collaborator is a parameter. -/
def handleCallInitiated (validate : String → PhoneValidationResult)
    (e : WebhookEvent) (s : Store) : Store × Bool :=
  let phone := initiatedPhone validate e
  let s1 : Store :=
    match findCall s e.call_id with
    | Option.none => { s with calls := s.calls ++ [initiatedRecord e phone] }
    | Option.some _ => { s with calls := updateFirstCall e.call_id (initiatedUpdate e) s.calls }
  let s2 := { s1 with events := s1.events ++ [callEventEntry e] }
  let s3 :=
    if phone.truthy then
      { s2 with customers := upsertCustomer e.data.customer_name phone e.data.customer_email s2.customers }
    else s2
  (s3, true)

/-- Record-field update of `_update_call_status`. -/
def statusUpdate (status : String) (error_details : Option String) (c : CallLog) : CallLog :=
  { c with
      status := status,
      error_details := if strTruthy error_details then error_details else c.error_details }

/-- Embedding of `_update_call_status` (`src/webhooks/events.py`
lines 368-390): if the record exists, overwrite its status (and
`error_details` when truthy) and append the audit entry; otherwise do
nothing and return `False`. -/
def updateCallStatus (e : WebhookEvent) (status : String) (error_details : Option String)
    (s : Store) : Store × Bool :=
  match findCall s e.call_id with
  | Option.none => (s, false)
  | Option.some _ =>
    ({ s with
        calls := updateFirstCall e.call_id (statusUpdate status error_details) s.calls,
        events := s.events ++ [callEventEntry e] }, true)

/-- Record-field update of `_handle_call_completed`: status `completed`,
`call_ended_at` from the event timestamp, `duration` recomputed from
`call_started_at` when present, else `None`. -/
def completedUpdate (e : WebhookEvent) (c : CallLog) : CallLog :=
  { c with
      status := "completed",
      call_ended_at := Option.some e.timestamp,
      duration := c.call_started_at.map (fun t0 => e.timestamp - t0) }

/-- Embedding of `_handle_call_completed` (`src/webhooks/events.py`
lines 228-257). The post-commit call to the metrics collaborator does not
touch the store and is omitted. -/
def handleCallCompleted (e : WebhookEvent) (s : Store) : Store × Bool :=
  match findCall s e.call_id with
  | Option.none => (s, false)
  | Option.some _ =>
    ({ s with
        calls := updateFirstCall e.call_id (completedUpdate e) s.calls,
        events := s.events ++ [callEventEntry e] }, true)

/-- Record-field update of `_handle_recording_ready`. -/
def recordingUpdate (e : WebhookEvent) (c : CallLog) : CallLog :=
  { c with recording_url := e.data.recording_url, recording_duration := e.data.duration }

/-- Embedding of `_handle_recording_ready` (`src/webhooks/events.py`
lines 275-296): only touches an existing record; returns `False` and
writes nothing when the record is absent. -/
def handleRecordingReady (e : WebhookEvent) (s : Store) : Store × Bool :=
  match findCall s e.call_id with
  | Option.none => (s, false)
  | Option.some _ =>
    ({ s with
        calls := updateFirstCall e.call_id (recordingUpdate e) s.calls,
        events := s.events ++ [callEventEntry e] }, true)

/-- Record-field update of `_handle_transcript_ready`. -/
def transcriptUpdate (e : WebhookEvent) (c : CallLog) : CallLog :=
  { c with transcript_url := e.data.transcript_url }

/-- Embedding of `_handle_transcript_ready` (`src/webhooks/events.py`
lines 298-318). -/
def handleTranscriptReady (e : WebhookEvent) (s : Store) : Store × Bool :=
  match findCall s e.call_id with
  | Option.none => (s, false)
  | Option.some _ =>
    ({ s with
        calls := updateFirstCall e.call_id (transcriptUpdate e) s.calls,
        events := s.events ++ [callEventEntry e] }, true)

/-- Record-field update of `_handle_error_occurred`. -/
def errorUpdate (e : WebhookEvent) (c : CallLog) : CallLog :=
  { c with error_details := e.data.error }

/-- Embedding of `_handle_error_occurred` (`src/webhooks/events.py`
lines 328-350). -/
def handleErrorOccurred (e : WebhookEvent) (s : Store) : Store × Bool :=
  match findCall s e.call_id with
  | Option.none => (s, false)
  | Option.some _ =>
    ({ s with
        calls := updateFirstCall e.call_id (errorUpdate e) s.calls,
        events := s.events ++ [callEventEntry e] }, true)

/-- Embedding of `_handle_unknown_event` (`src/webhooks/events.py`
lines 352-366): append an audit entry only, touch no record. -/
def handleUnknownEvent (e : WebhookEvent) (s : Store) : Store × Bool :=
  ({ s with events := s.events ++ [callEventEntry e] }, true)

/-- Embedding of `_log_participant_event` (`src/webhooks/events.py`
lines 392-406): identical effect to the unknown-event handler. -/
def logParticipantEvent (e : WebhookEvent) (s : Store) : Store × Bool :=
  ({ s with events := s.events ++ [callEventEntry e] }, true)

/-- Event types whose handler routes through `_update_call_status` with the
corresponding status string. -/
def statusOf (t : String) : Option String :=
  if t = "call.connected" then Option.some "connected"
  else if t = "call.answered" then Option.some "answered"
  else if t = "call.cancelled" then Option.some "cancelled"
  else if t = "call.no_answer" then Option.some "no_answer"
  else if t = "call.busy" then Option.some "busy"
  else Option.none

/-- Dispatch of `_process_event` over the `event_handlers` mapping built in
`WebhookEventProcessor.__init__`; an event type with no handler goes to
`_handle_unknown_event`. -/
def processEvent (validate : String → PhoneValidationResult)
    (e : WebhookEvent) (s : Store) : Store × Bool :=
  if e.event_type = "call.initiated" then handleCallInitiated validate e s
  else if e.event_type = "call.completed" then handleCallCompleted e s
  else if e.event_type = "call.failed" then updateCallStatus e "failed" e.data.error s
  else if e.event_type = "recording.ready" then handleRecordingReady e s
  else if e.event_type = "transcript.ready" then handleTranscriptReady e s
  else if e.event_type = "error.occurred" then handleErrorOccurred e s
  else if e.event_type = "participant.joined" then logParticipantEvent e s
  else if e.event_type = "participant.left" then logParticipantEvent e s
  else
    match statusOf e.event_type with
    | Option.some st => updateCallStatus e st Option.none s
    | Option.none => handleUnknownEvent e s

/-- Raw inbound payload as inspected by `_parse_webhook_event`: each
recognized top-level key is `Option.some` when present.  `selfData` is the
top-level mapping itself viewed as event data, used for the shape-B
fallback `payload.get(payload-key, payload)`. -/
structure RawPayload where
  event_type : Option String
  typeTag : Option String
  call_id : Option String
  callId : Option String
  timestamp : Option String
  createdAt : Option String
  data : Option EventData
  payload : Option EventData
  selfData : EventData
deriving DecidableEq, Repr

/-- Timestamp field resolution of `_parse_webhook_event`: a truthy
timestamp string is run through the ordered `strptime` format list
(modelled by the collaborator `parseTs`, returning `Option.none` on total
failure); any failure or absence substitutes the ingestion time. -/
def resolveTimestamp (parseTs : String → Option Int) (ingestNow : Int)
    (tsStr : Option String) : Int :=
  match tsStr with
  | Option.none => ingestNow
  | Option.some str =>
    if str = "" then ingestNow
    else
      match parseTs str with
      | Option.some t => t
      | Option.none => ingestNow

/-- Embedding of `_parse_webhook_event` (`src/webhooks/events.py`
lines 93-147).  Shape A is keyed by the presence of `event_type`, shape B
by the presence of `type`; any other shape, or a falsy call id, yields
`Option.none` (the NormalizationError path). -/
def parseWebhookEvent (parseTs : String → Option Int) (ingestNow : Int)
    (p : RawPayload) (source : String) : Option WebhookEvent :=
  let fields : Option (String × Option String × EventData × Option String) :=
    match p.event_type with
    | Option.some et => Option.some (et, p.call_id, p.data.getD EventData.empty, p.timestamp)
    | Option.none =>
      match p.typeTag with
      | Option.some t =>
        Option.some (t, pyOr p.callId p.call_id, p.payload.getD p.selfData,
          pyOr p.createdAt p.timestamp)
      | Option.none => Option.none
  match fields with
  | Option.none => Option.none
  | Option.some (etype, cid, d, tsStr) =>
    match cid with
    | Option.none => Option.none
    | Option.some c =>
      if c = "" then Option.none
      else Option.some ⟨etype, c, resolveTimestamp parseTs ingestNow tsStr, d, source⟩

/-- Modelled from the spec: `self._log_webhook(payload, source)` is called
by `process_webhook` but `_log_webhook` is defined nowhere in the
repository; the spec's WebhookDeliveryLog records every inbound payload.
Appends one inbound-log row (not a `CallEvent`) and returns its index. -/
def logWebhook (source : String) (s : Store) : Store × Nat :=
  ({ s with inbound := s.inbound ++ [⟨source, Option.none⟩] }, s.inbound.length)

/-- Modelled from the spec: `self._update_webhook_log(webhook_log_id,
success)` is called by `process_webhook` but defined nowhere in the
repository; records the processing outcome on the inbound-log row. -/
def updateInboundLog (wid : Nat) (ok : Bool) (s : Store) : Store :=
  { s with
      inbound := s.inbound.mapIdx (fun i entry =>
        if i = wid then { entry with success := Option.some ok } else entry) }

/-- Embedding of `process_webhook` (`src/webhooks/events.py` lines 69-91):
log the raw payload, parse it, and only on successful parse dispatch to
`_process_event`; a parse failure returns `False` with no further store
effect. -/
def processWebhook (validate : String → PhoneValidationResult)
    (parseTs : String → Option Int) (ingestNow : Int)
    (p : RawPayload) (source : String) (s : Store) : Store × Bool :=
  let (s1, wid) := logWebhook source s
  match parseWebhookEvent parseTs ingestNow p source with
  | Option.none => (s1, false)
  | Option.some e =>
    let (s2, ok) := processEvent validate e s1
    (updateInboundLog wid ok s2, ok)

/-!
Transactional model for the store session (`DatabaseManager.get_db_session`
in `src/database/connection.py`): the body's store writes happen inside one
session and become durable only at `commit`; an exception raised before the
commit rolls the whole session back.  To express atomicity, each event
application is re-stated as the list of primitive store writes it performs,
an injected failure can interrupt that list at any index, and the partially
executed session state is then discarded in favour of the unchanged durable
store.
-/

/-- Primitive store writes performed inside one event-application
transaction. -/
inductive DbOp where
  | updateCall (cid : String) (f : CallLog → CallLog)
  | addCall (c : CallLog)
  | addEvent (ev : CallEvent)
  | upsertCust (name : Option String) (phone : PyVal) (email : Option String)

/-- Effect of one primitive write on the session's view of the store. -/
def applyOp (s : Store) : DbOp → Store
  | DbOp.updateCall cid f => { s with calls := updateFirstCall cid f s.calls }
  | DbOp.addCall c => { s with calls := s.calls ++ [c] }
  | DbOp.addEvent ev => { s with events := s.events ++ [ev] }
  | DbOp.upsertCust name phone email =>
    { s with customers := upsertCustomer name phone email s.customers }

/-- Sequential execution of a transaction body's writes. -/
def execOps (ops : List DbOp) (s : Store) : Store :=
  ops.foldl applyOp s

/-- Write-set of `_process_event` for one event against the current durable
store: the same branches as `processEvent`, as lists of primitive writes. -/
def eventOps (validate : String → PhoneValidationResult)
    (e : WebhookEvent) (s : Store) : List DbOp :=
  if e.event_type = "call.initiated" then
    let phone := initiatedPhone validate e
    (match findCall s e.call_id with
     | Option.none => [DbOp.addCall (initiatedRecord e phone)]
     | Option.some _ => [DbOp.updateCall e.call_id (initiatedUpdate e)]) ++
    [DbOp.addEvent (callEventEntry e)] ++
    (if phone.truthy then [DbOp.upsertCust e.data.customer_name phone e.data.customer_email]
     else [])
  else if e.event_type = "call.completed" then
    match findCall s e.call_id with
    | Option.none => []
    | Option.some _ =>
      [DbOp.updateCall e.call_id (completedUpdate e), DbOp.addEvent (callEventEntry e)]
  else if e.event_type = "call.failed" then
    match findCall s e.call_id with
    | Option.none => []
    | Option.some _ =>
      [DbOp.updateCall e.call_id (statusUpdate "failed" e.data.error),
       DbOp.addEvent (callEventEntry e)]
  else if e.event_type = "recording.ready" then
    match findCall s e.call_id with
    | Option.none => []
    | Option.some _ =>
      [DbOp.updateCall e.call_id (recordingUpdate e), DbOp.addEvent (callEventEntry e)]
  else if e.event_type = "transcript.ready" then
    match findCall s e.call_id with
    | Option.none => []
    | Option.some _ =>
      [DbOp.updateCall e.call_id (transcriptUpdate e), DbOp.addEvent (callEventEntry e)]
  else if e.event_type = "error.occurred" then
    match findCall s e.call_id with
    | Option.none => []
    | Option.some _ =>
      [DbOp.updateCall e.call_id (errorUpdate e), DbOp.addEvent (callEventEntry e)]
  else if e.event_type = "participant.joined" then [DbOp.addEvent (callEventEntry e)]
  else if e.event_type = "participant.left" then [DbOp.addEvent (callEventEntry e)]
  else
    match statusOf e.event_type with
    | Option.some st =>
      match findCall s e.call_id with
      | Option.none => []
      | Option.some _ =>
        [DbOp.updateCall e.call_id (statusUpdate st Option.none),
         DbOp.addEvent (callEventEntry e)]
    | Option.none => [DbOp.addEvent (callEventEntry e)]

/-- Transaction runner with failure injection, following
`get_db_session`: `failAt = Option.some k` raises a store error right
before the k-th primitive write (`k < ops.length`).  The session executes
the prefix of writes, but on an exception the rollback discards the
session and the durable store stays as it was; only a complete body
commits. -/
def runTx (failAt : Option Nat) (ops : List DbOp) (s : Store) : Store × Bool :=
  match failAt with
  | Option.some k =>
    if k < ops.length then
      let _sessionView := execOps (ops.take k) s
      (s, false)
    else (execOps ops s, true)
  | Option.none => (execOps ops s, true)

/-!
Outbound delivery retry bookkeeping (`src/webhooks/handlers.py`): the
`WebhookLog` row fields that drive `_schedule_webhook_retry` and the sweep
`process_webhook_retries`.
-/

/-- Retry-relevant fields of the outbound `WebhookLog` row
(`database/models.py`). -/
structure DeliveryRecord where
  retry_count : Nat
  max_retries : Nat
  next_retry_at : Option Int
  delivered : Bool
deriving DecidableEq, Repr

/-- Embedding of `WebhookManager._schedule_webhook_retry`
(`src/webhooks/handlers.py` lines 148-166): only below the cap, increment
`retry_count` and set `next_retry_at = now + retry_delay * 2 ^ retry_count`
with the incremented count (exponential backoff). -/
def scheduleWebhookRetry (retryDelay : Nat) (now : Int) (w : DeliveryRecord) : DeliveryRecord :=
  if w.retry_count < w.max_retries then
    { w with
        retry_count := w.retry_count + 1,
        next_retry_at := Option.some (now + (retryDelay * 2 ^ (w.retry_count + 1) : Nat)) }
  else w

/-- Selection filter of `process_webhook_retries`
(`src/webhooks/handlers.py` lines 168-198): not delivered, below the retry
cap, and `next_retry_at` due (a NULL `next_retry_at` never compares due in
SQL). -/
def dueForRetry (now : Int) (w : DeliveryRecord) : Bool :=
  !w.delivered && w.retry_count < w.max_retries &&
    (match w.next_retry_at with
     | Option.some t => t ≤ now
     | Option.none => false)

/-- One sweep step of `process_webhook_retries` on a single record: a
selected record first has `next_retry_at` cleared, then either is marked
delivered on a successful attempt or is rescheduled; an unselected record
is untouched.  The delivery outcome is the oracle `attemptOk`. -/
def sweepStep (attemptOk : Bool) (retryDelay : Nat) (now : Int)
    (w : DeliveryRecord) : DeliveryRecord :=
  if dueForRetry now w then
    let w1 := { w with next_retry_at := Option.none }
    if attemptOk then { w1 with delivered := true }
    else scheduleWebhookRetry retryDelay now w1
  else w

/-!
Metrics cache (`MetricsCollector` in `src/monitoring/metrics.py` and
`src/monitoring/collectors.py`).  Both collectors key a cache entry by the
query's window parameters and intend a fixed 300-second TTL; they differ in
how they compute the entry's age.
-/

/-- Python `timedelta.seconds` for a non-negative delta of whole seconds:
the seconds component after the days component is split off, that is, the
elapsed time modulo 86400. -/
def timedeltaSecondsPart (elapsed : Nat) : Nat :=
  elapsed % 86400

/-- Cache of `monitoring/metrics.py`: per key, the cached aggregate and the
time it was stored. -/
structure MetricsCache where
  entries : List (String × Int × Nat)
deriving DecidableEq, Repr

/-- Freshness test used by `MetricsCollector.collect_daily_metrics` in
`src/monitoring/metrics.py` (lines 26-29): the entry is served when
`(utcnow() - cache_time).seconds < cache_duration`, with `cache_duration =
300`.  Note the source reads the `seconds` component, not
`total_seconds()`. -/
def metricsCacheLookup (cache : MetricsCache) (key : String) (now : Nat) : Option Int :=
  match cache.entries.find? (fun ent => ent.1 = key) with
  | Option.none => Option.none
  | Option.some ent =>
    if timedeltaSecondsPart (now - ent.2.2) < 300 then Option.some ent.2.1
    else Option.none

/-- Embedding of the cache discipline of
`MetricsCollector.collect_daily_metrics` (`src/monitoring/metrics.py`
lines 18-76): serve the cached aggregate when the lookup reports it fresh,
otherwise recompute via the collaborator `compute` and replace the cache
entry.  Returns the served value and whether a recomputation happened. -/
def collectDailyMetrics (compute : Unit → Int) (cache : MetricsCache)
    (key : String) (now : Nat) : Int × Bool × MetricsCache :=
  match metricsCacheLookup cache key now with
  | Option.some v => (v, false, cache)
  | Option.none =>
    let v := compute ()
    (v, true,
      ⟨(key, v, now) :: cache.entries.filter (fun ent => !(ent.1 = key))⟩)

/-- Freshness test of the other collector,
`MetricsCollector._is_cache_valid` in `src/monitoring/collectors.py`
(lines 481-487): `(utcnow() - cache_time).total_seconds() < cache_ttl`
with `cache_ttl = 300`. -/
def isCacheValid (cacheTime : Nat) (now : Nat) : Bool :=
  now - cacheTime < 300

/-!
Concrete demonstration data used by counterexamples and witnesses.
-/

/-- Concrete instance of the phone-validation collaborator: one number is
valid (already in E.164), everything else invalid. -/
def validateDemo (p : String) : PhoneValidationResult :=
  if p = "+15551234567" then ⟨true, Option.some "+15551234567", Option.none⟩
  else ⟨false, Option.none, Option.some "Invalid phone number"⟩

/-- Concrete timestamp-parsing collaborator that fails on every format. -/
def parseTsDemo (_ : String) : Option Int := Option.none

/-- Demonstration `call.initiated` event for call `c1` carrying a valid
customer phone. -/
def evInitiated : WebhookEvent :=
  ⟨"call.initiated", "c1", 100,
   { EventData.empty with
       customer_phone := Option.some "+15551234567",
       customer_name := Option.some "A" }, "webhook"⟩

/-- Demonstration `call.completed` event for call `c1`. -/
def evCompleted : WebhookEvent :=
  ⟨"call.completed", "c1", 160, EventData.empty, "webhook"⟩

/-- Demonstration `call.connected` event for call `c1`, arriving after the
`call.completed` event. -/
def evConnected : WebhookEvent :=
  ⟨"call.connected", "c1", 130, EventData.empty, "webhook"⟩

/-- Demonstration `recording.ready` event for a call id never seen. -/
def evRecReady : WebhookEvent :=
  ⟨"recording.ready", "c9", 5, EventData.empty, "webhook"⟩

/-- Demonstration `call.connected` event for a call id never seen. -/
def evConnUnseen : WebhookEvent :=
  ⟨"call.connected", "c7", 5, EventData.empty, "webhook"⟩

/-- Demonstration `call.completed` event for a call id never seen. -/
def evCompletedUnseen : WebhookEvent :=
  ⟨"call.completed", "c8", 9, EventData.empty, "webhook"⟩

/-- Demonstration `participant.joined` event. -/
def evParticipant : WebhookEvent :=
  ⟨"participant.joined", "c9", 6, EventData.empty, "webhook"⟩

/-- Store after the demonstration `call.initiated` event. -/
def demoStore1 : Store := (processEvent validateDemo evInitiated Store.empty).1

/-- Store after `call.initiated` then `call.completed`. -/
def demoStore2 : Store := (processEvent validateDemo evCompleted demoStore1).1

/-- Store after `call.initiated`, `call.completed`, then `call.connected`. -/
def demoStore3 : Store := (processEvent validateDemo evConnected demoStore2).1

/-- Raw payload of shape A (`event_type` key present) with no call
identifier under either alias. -/
def rawNoIdA : RawPayload :=
  ⟨Option.some "call.completed", Option.none, Option.none, Option.none,
   Option.none, Option.none, Option.none, Option.none, EventData.empty⟩

/-- Raw payload of shape B (`type` key present) with no call identifier
under either alias. -/
def rawNoIdB : RawPayload :=
  ⟨Option.none, Option.some "call.completed", Option.none, Option.none,
   Option.none, Option.none, Option.none, Option.none, EventData.empty⟩

/-!
Helper lemmas about the store primitives.
-/

theorem updateFirstCall_length (cid : String) (f : CallLog → CallLog) (l : List CallLog) :
    (updateFirstCall cid f l).length = l.length := by
  induction l with
  | nil => rfl
  | cons c rest ih =>
    by_cases h : c.call_id = cid <;> simp [updateFirstCall, h, ih]

theorem updateFirstCall_of_no_match (cid : String) (f : CallLog → CallLog)
    (l : List CallLog) (h : ∀ c ∈ l, c.call_id = cid → f c = c) :
    updateFirstCall cid f l = l := by
  induction l with
  | nil => rfl
  | cons c rest ih =>
    by_cases hc : c.call_id = cid
    · simp [updateFirstCall, hc, h c (by simp) hc]
    · simp [updateFirstCall, hc]
      exact ih (fun d hd hdc => h d (by simp [hd]) hdc)

theorem updateFirstCall_idem (cid : String) (f : CallLog → CallLog)
    (hcid : ∀ c, (f c).call_id = c.call_id) (hidem : ∀ c, f (f c) = f c)
    (l : List CallLog) :
    updateFirstCall cid f (updateFirstCall cid f l) = updateFirstCall cid f l := by
  induction l with
  | nil => rfl
  | cons c rest ih =>
    by_cases hc : c.call_id = cid
    · simp [updateFirstCall, hc, hcid, hidem]
    · simp [updateFirstCall, hc, ih]

theorem find?_updateFirstCall (cid : String) (f : CallLog → CallLog)
    (hcid : ∀ c, (f c).call_id = c.call_id) (l : List CallLog) :
    (updateFirstCall cid f l).find? (fun c => c.call_id = cid) =
      (l.find? (fun c => c.call_id = cid)).map f := by
  induction l with
  | nil => rfl
  | cons c rest ih =>
    by_cases hc : c.call_id = cid
    · simp [updateFirstCall, hc, List.find?, hcid c ▸ hc]
    · simp [updateFirstCall, hc, List.find?, ih]

theorem find?_append_calls (p : CallLog → Bool) (l : List CallLog) (a : CallLog)
    (h : l.find? p = Option.none) :
    (l ++ [a]).find? p = [a].find? p := by
  induction l with
  | nil => rfl
  | cons c rest ih =>
    simp only [List.cons_append, List.find?] at h ⊢
    cases hp : p c with
    | true => rw [hp] at h; exact Option.noConfusion h
    | false => rw [hp] at h; exact ih h

theorem customerUpdate_idem (name email : Option String) (c : Customer) :
    customerUpdate name email (customerUpdate name email c) = customerUpdate name email c := by
  unfold customerUpdate
  by_cases h : strTruthy email <;> simp [h]

theorem customerUpdate_phone (name email : Option String) (c : Customer) :
    (customerUpdate name email c).phone = c.phone := rfl

theorem customerUpdate_new (name : Option String) (phone : PyVal) (email : Option String) :
    customerUpdate name email ⟨name, phone, email⟩ = ⟨name, phone, email⟩ := by
  unfold customerUpdate
  by_cases h : strTruthy email <;> simp [h]

theorem upsertCustomer_idem (name : Option String) (phone : PyVal) (email : Option String)
    (l : List Customer) :
    upsertCustomer name phone email (upsertCustomer name phone email l) =
      upsertCustomer name phone email l := by
  induction l with
  | nil => simp [upsertCustomer, customerUpdate_new]
  | cons c rest ih =>
    by_cases hc : c.phone = phone
    · simp [upsertCustomer, hc, customerUpdate_phone, customerUpdate_idem]
    · simp [upsertCustomer, hc, ih]

/-!
Shared shape of the five record-updating handlers
(`_update_call_status`, `_handle_call_completed`, `_handle_recording_ready`,
`_handle_transcript_ready`, `_handle_error_occurred`): look up the record,
do nothing on a miss, otherwise mutate the record and append the audit
entry.
-/

/-- Common shape of the record-updating handlers. -/
def recordHandler (f : CallLog → CallLog) (e : WebhookEvent) (s : Store) : Store × Bool :=
  match findCall s e.call_id with
  | Option.none => (s, false)
  | Option.some _ =>
    ({ s with
        calls := updateFirstCall e.call_id f s.calls,
        events := s.events ++ [callEventEntry e] }, true)

theorem updateCallStatus_eq (e : WebhookEvent) (st : String) (ed : Option String) (s : Store) :
    updateCallStatus e st ed s = recordHandler (statusUpdate st ed) e s := by
  unfold updateCallStatus recordHandler
  cases findCall s e.call_id <;> rfl

theorem handleCallCompleted_eq (e : WebhookEvent) (s : Store) :
    handleCallCompleted e s = recordHandler (completedUpdate e) e s := by
  unfold handleCallCompleted recordHandler
  cases findCall s e.call_id <;> rfl

theorem handleRecordingReady_eq (e : WebhookEvent) (s : Store) :
    handleRecordingReady e s = recordHandler (recordingUpdate e) e s := by
  unfold handleRecordingReady recordHandler
  cases findCall s e.call_id <;> rfl

theorem handleTranscriptReady_eq (e : WebhookEvent) (s : Store) :
    handleTranscriptReady e s = recordHandler (transcriptUpdate e) e s := by
  unfold handleTranscriptReady recordHandler
  cases findCall s e.call_id <;> rfl

theorem handleErrorOccurred_eq (e : WebhookEvent) (s : Store) :
    handleErrorOccurred e s = recordHandler (errorUpdate e) e s := by
  unfold handleErrorOccurred recordHandler
  cases findCall s e.call_id <;> rfl

theorem recordHandler_none (f : CallLog → CallLog) (e : WebhookEvent) (s : Store)
    (h : findCall s e.call_id = Option.none) :
    recordHandler f e s = (s, false) := by
  simp [recordHandler, h]

theorem recordHandler_some (f : CallLog → CallLog) (e : WebhookEvent) (s : Store)
    (c : CallLog) (h : findCall s e.call_id = Option.some c) :
    recordHandler f e s =
      ({ s with
          calls := updateFirstCall e.call_id f s.calls,
          events := s.events ++ [callEventEntry e] }, true) := by
  simp [recordHandler, h]

theorem recordHandler_events_len (f : CallLog → CallLog) (e : WebhookEvent) (s : Store) :
    (recordHandler f e s).1.events.length =
      s.events.length + (if (recordHandler f e s).2 then 1 else 0) := by
  unfold recordHandler
  cases findCall s e.call_id <;> simp

theorem recordHandler_customers (f : CallLog → CallLog) (e : WebhookEvent) (s : Store) :
    (recordHandler f e s).1.customers = s.customers := by
  unfold recordHandler
  cases findCall s e.call_id <;> rfl

theorem recordHandler_inbound (f : CallLog → CallLog) (e : WebhookEvent) (s : Store) :
    (recordHandler f e s).1.inbound = s.inbound := by
  unfold recordHandler
  cases findCall s e.call_id <;> rfl

/-- Updating the found record keeps its position, so a second lookup finds
the updated record. -/
theorem findCall_recordHandler (f : CallLog → CallLog) (e : WebhookEvent) (s : Store)
    (hcid : ∀ c, (f c).call_id = c.call_id) :
    findCall (recordHandler f e s).1 e.call_id = (findCall s e.call_id).map f ∨
      (recordHandler f e s).1 = s := by
  cases h : findCall s e.call_id with
  | none => exact Or.inr (by rw [recordHandler_none f e s h])
  | some c =>
    left
    rw [recordHandler_some f e s c h]
    simp only [findCall] at h ⊢
    rw [find?_updateFirstCall e.call_id f hcid s.calls, h]

/-- Re-applying the same record handler converges: the second application
changes no call record and no customer, returns the same flag, and the
audit log grows by one entry per successful application. -/
theorem recordHandler_idem (f : CallLog → CallLog) (e : WebhookEvent) (s : Store)
    (hcid : ∀ c, (f c).call_id = c.call_id) (hidem : ∀ c, f (f c) = f c) :
    (recordHandler f e (recordHandler f e s).1).1.calls = (recordHandler f e s).1.calls ∧
    (recordHandler f e (recordHandler f e s).1).1.customers =
      (recordHandler f e s).1.customers ∧
    (recordHandler f e (recordHandler f e s).1).2 = (recordHandler f e s).2 ∧
    (recordHandler f e (recordHandler f e s).1).1.events.length =
      s.events.length + (if (recordHandler f e s).2 then 2 else 0) := by
  cases h : findCall s e.call_id with
  | none =>
    rw [recordHandler_none f e s h, recordHandler_none f e s h]
    simp
  | some c =>
    rw [recordHandler_some f e s c h]
    have h2 : findCall
        ({ s with
            calls := updateFirstCall e.call_id f s.calls,
            events := s.events ++ [callEventEntry e] } : Store) e.call_id =
        Option.some (f c) := by
      unfold findCall at h ⊢
      simp [find?_updateFirstCall e.call_id f hcid s.calls, h]
    rw [recordHandler_some f e _ (f c) h2]
    refine ⟨?_, rfl, rfl, ?_⟩
    · simp [updateFirstCall_idem e.call_id f hcid hidem]
    · simp

/-!
Idempotency of the individual record-update functions.
-/

theorem statusUpdate_cid (st : String) (ed : Option String) (c : CallLog) :
    (statusUpdate st ed c).call_id = c.call_id := rfl

theorem statusUpdate_idem (st : String) (ed : Option String) (c : CallLog) :
    statusUpdate st ed (statusUpdate st ed c) = statusUpdate st ed c := by
  unfold statusUpdate
  by_cases h : strTruthy ed <;> simp [h]

theorem completedUpdate_cid (e : WebhookEvent) (c : CallLog) :
    (completedUpdate e c).call_id = c.call_id := rfl

theorem completedUpdate_idem (e : WebhookEvent) (c : CallLog) :
    completedUpdate e (completedUpdate e c) = completedUpdate e c := rfl

theorem recordingUpdate_cid (e : WebhookEvent) (c : CallLog) :
    (recordingUpdate e c).call_id = c.call_id := rfl

theorem recordingUpdate_idem (e : WebhookEvent) (c : CallLog) :
    recordingUpdate e (recordingUpdate e c) = recordingUpdate e c := rfl

theorem transcriptUpdate_cid (e : WebhookEvent) (c : CallLog) :
    (transcriptUpdate e c).call_id = c.call_id := rfl

theorem transcriptUpdate_idem (e : WebhookEvent) (c : CallLog) :
    transcriptUpdate e (transcriptUpdate e c) = transcriptUpdate e c := rfl

theorem errorUpdate_cid (e : WebhookEvent) (c : CallLog) :
    (errorUpdate e c).call_id = c.call_id := rfl

theorem errorUpdate_idem (e : WebhookEvent) (c : CallLog) :
    errorUpdate e (errorUpdate e c) = errorUpdate e c := rfl

theorem initiatedUpdate_cid (e : WebhookEvent) (c : CallLog) :
    (initiatedUpdate e c).call_id = c.call_id := rfl

theorem initiatedUpdate_idem (e : WebhookEvent) (c : CallLog) :
    initiatedUpdate e (initiatedUpdate e c) = initiatedUpdate e c := rfl

theorem initiatedUpdate_fixes_record (e : WebhookEvent) (phone : PyVal) :
    initiatedUpdate e (initiatedRecord e phone) = initiatedRecord e phone := rfl

theorem find?_false_of_none (p : CallLog → Bool) (l : List CallLog)
    (h : l.find? p = Option.none) : ∀ c ∈ l, p c = false := by
  induction l with
  | nil => intro c hc; cases hc
  | cons c rest ih =>
    intro d hd
    simp only [List.find?] at h
    cases hp : p c with
    | true => rw [hp] at h; exact Option.noConfusion h
    | false =>
      rw [hp] at h
      rcases List.mem_cons.mp hd with rfl | hd2
      · exact hp
      · exact ih h d hd2

/-- A fresh `call.initiated` record is found by a later lookup on the same
call id. -/
theorem findCall_after_create (e : WebhookEvent) (phone : PyVal) (s : Store)
    (hfc : findCall s e.call_id = Option.none) :
    (s.calls ++ [initiatedRecord e phone]).find? (fun c => c.call_id = e.call_id) =
      Option.some (initiatedRecord e phone) := by
  rw [find?_append_calls _ s.calls _ hfc]
  simp [List.find?, initiatedRecord]

theorem handleCallInitiated_result (v : String → PhoneValidationResult)
    (e : WebhookEvent) (s : Store) :
    (handleCallInitiated v e s).2 = true ∧
    (handleCallInitiated v e s).1.events.length = s.events.length + 1 ∧
    (handleCallInitiated v e s).1.inbound = s.inbound := by
  unfold handleCallInitiated
  cases hfc : findCall s e.call_id <;>
    by_cases hp : (initiatedPhone v e).truthy <;> simp [hp]

theorem handleCallInitiated_calls_len_of_found (v : String → PhoneValidationResult)
    (e : WebhookEvent) (s : Store) (c : CallLog)
    (hfc : findCall s e.call_id = Option.some c) :
    (handleCallInitiated v e s).1.calls.length = s.calls.length := by
  unfold handleCallInitiated
  rw [hfc]
  by_cases hp : (initiatedPhone v e).truthy <;>
    simp [hp, updateFirstCall_length]

/-- Re-applying the same `call.initiated` event converges: the second
application changes no call record and no customer, and each application
appends one audit entry. -/
theorem handleCallInitiated_idem (v : String → PhoneValidationResult)
    (e : WebhookEvent) (s : Store) :
    (handleCallInitiated v e (handleCallInitiated v e s).1).1.calls =
      (handleCallInitiated v e s).1.calls ∧
    (handleCallInitiated v e (handleCallInitiated v e s).1).1.customers =
      (handleCallInitiated v e s).1.customers ∧
    (handleCallInitiated v e (handleCallInitiated v e s).1).2 =
      (handleCallInitiated v e s).2 ∧
    (handleCallInitiated v e (handleCallInitiated v e s).1).1.events.length =
      s.events.length + 2 := by
  cases hfc : findCall s e.call_id with
  | none =>
    have hfind2 : ∀ extraEvents extraCust,
        findCall ({ s with
            calls := s.calls ++ [initiatedRecord e (initiatedPhone v e)],
            customers := extraCust,
            events := extraEvents } : Store) e.call_id =
          Option.some (initiatedRecord e (initiatedPhone v e)) := by
      intro extraEvents extraCust
      simp only [findCall]
      exact findCall_after_create e _ s hfc
    have hfix : updateFirstCall e.call_id (initiatedUpdate e)
        (s.calls ++ [initiatedRecord e (initiatedPhone v e)]) =
        s.calls ++ [initiatedRecord e (initiatedPhone v e)] := by
      apply updateFirstCall_of_no_match
      intro c hc hcid
      rcases List.mem_append.mp hc with hmem | hmem
      · have := find?_false_of_none _ s.calls hfc c hmem
        simp [hcid] at this
      · rcases List.mem_singleton.mp hmem with rfl
        exact initiatedUpdate_fixes_record e _
    by_cases hp : (initiatedPhone v e).truthy
    · simp only [handleCallInitiated, hfc, hp, if_pos]
      simp only [handleCallInitiated, hfind2, hp, if_pos]
      simp [hfix, upsertCustomer_idem]
    · simp only [handleCallInitiated, hfc, hp, if_neg, Bool.false_eq_true, not_false_iff]
      simp only [handleCallInitiated, hfind2, hp, if_neg, Bool.false_eq_true, not_false_iff]
      simp [hfix]
  | some c =>
    have hfind2 : ∀ extraEvents extraCust,
        findCall ({ s with
            calls := updateFirstCall e.call_id (initiatedUpdate e) s.calls,
            customers := extraCust,
            events := extraEvents } : Store) e.call_id =
          Option.some (initiatedUpdate e c) := by
      intro extraEvents extraCust
      simp only [findCall] at hfc ⊢
      rw [find?_updateFirstCall e.call_id _ (initiatedUpdate_cid e) s.calls, hfc]
      rfl
    have hfix : updateFirstCall e.call_id (initiatedUpdate e)
        (updateFirstCall e.call_id (initiatedUpdate e) s.calls) =
        updateFirstCall e.call_id (initiatedUpdate e) s.calls :=
      updateFirstCall_idem e.call_id _ (initiatedUpdate_cid e) (initiatedUpdate_idem e) s.calls
    by_cases hp : (initiatedPhone v e).truthy
    · simp only [handleCallInitiated, hfc, hp, if_pos]
      simp only [handleCallInitiated, hfind2, hp, if_pos]
      simp [hfix, upsertCustomer_idem]
    · simp only [handleCallInitiated, hfc, hp, if_neg, Bool.false_eq_true, not_false_iff]
      simp only [handleCallInitiated, hfind2, hp, if_neg, Bool.false_eq_true, not_false_iff]
      simp [hfix]

theorem handleUnknownEvent_result (e : WebhookEvent) (s : Store) :
    handleUnknownEvent e s = ({ s with events := s.events ++ [callEventEntry e] }, true) := rfl

theorem logParticipantEvent_result (e : WebhookEvent) (s : Store) :
    logParticipantEvent e s = ({ s with events := s.events ++ [callEventEntry e] }, true) := rfl

/-- Event types whose handlers refuse to act when no call record exists
(`_update_call_status`, `_handle_call_completed`, `_handle_recording_ready`,
`_handle_transcript_ready`, `_handle_error_occurred`). -/
def recordRequiredTypes : List String :=
  ["call.connected", "call.answered", "call.completed", "call.failed",
   "call.cancelled", "call.no_answer", "call.busy",
   "recording.ready", "transcript.ready", "error.occurred"]

/-- Write-set of a record-updating handler. -/
def recordOps (f : CallLog → CallLog) (e : WebhookEvent) (s : Store) : List DbOp :=
  match findCall s e.call_id with
  | Option.none => []
  | Option.some _ => [DbOp.updateCall e.call_id f, DbOp.addEvent (callEventEntry e)]

/-- Write-set of the `call.initiated` handler. -/
def initOps (v : String → PhoneValidationResult) (e : WebhookEvent) (s : Store) : List DbOp :=
  (match findCall s e.call_id with
   | Option.none => [DbOp.addCall (initiatedRecord e (initiatedPhone v e))]
   | Option.some _ => [DbOp.updateCall e.call_id (initiatedUpdate e)]) ++
  [DbOp.addEvent (callEventEntry e)] ++
  (if (initiatedPhone v e).truthy then
     [DbOp.upsertCust e.data.customer_name (initiatedPhone v e) e.data.customer_email]
   else [])

theorem statusOf_mem (t st : String) (h : statusOf t = Option.some st) :
    t ∈ recordRequiredTypes := by
  unfold statusOf at h
  split_ifs at h with h1 h2 h3 h4 h5
  · subst t; decide
  · subst t; decide
  · subst t; decide
  · subst t; decide
  · subst t; decide

/-- Dispatch of `_process_event`: every event type lands in exactly one of
three behaviours — the `call.initiated` handler, a record-updating handler
with an idempotent call-id-preserving field update, or the pure
log-only handlers (participant events and unrecognized types). -/
theorem processEvent_dispatch (v : String → PhoneValidationResult) (e : WebhookEvent) :
    (e.event_type = "call.initiated" ∧
      ∀ s, processEvent v e s = handleCallInitiated v e s ∧
        eventOps v e s = initOps v e s) ∨
    (e.event_type ∈ recordRequiredTypes ∧ ∃ f,
      (∀ c, (f c).call_id = c.call_id) ∧ (∀ c, f (f c) = f c) ∧
      ∀ s, processEvent v e s = recordHandler f e s ∧
        eventOps v e s = recordOps f e s) ∨
    (e.event_type ≠ "call.initiated" ∧ e.event_type ∉ recordRequiredTypes ∧
      ∀ s, processEvent v e s = ({ s with events := s.events ++ [callEventEntry e] }, true) ∧
        eventOps v e s = [DbOp.addEvent (callEventEntry e)]) := by
  by_cases h1 : e.event_type = "call.initiated"
  · exact Or.inl ⟨h1, fun s =>
      ⟨by simp [processEvent, h1], by simp [eventOps, initOps, h1]⟩⟩
  by_cases h2 : e.event_type = "call.completed"
  · refine Or.inr (Or.inl ⟨by rw [h2]; decide, completedUpdate e,
      completedUpdate_cid e, completedUpdate_idem e, fun s => ⟨?_, ?_⟩⟩)
    · rw [show processEvent v e s = handleCallCompleted e s by simp [processEvent, h1, h2]]
      exact handleCallCompleted_eq e s
    · simp [eventOps, recordOps, h1, h2]
  by_cases h3 : e.event_type = "call.failed"
  · refine Or.inr (Or.inl ⟨by rw [h3]; decide, statusUpdate "failed" e.data.error,
      statusUpdate_cid "failed" e.data.error, statusUpdate_idem "failed" e.data.error,
      fun s => ⟨?_, ?_⟩⟩)
    · rw [show processEvent v e s = updateCallStatus e "failed" e.data.error s by
        simp [processEvent, h1, h2, h3]]
      exact updateCallStatus_eq e "failed" e.data.error s
    · simp [eventOps, recordOps, h1, h2, h3]
  by_cases h4 : e.event_type = "recording.ready"
  · refine Or.inr (Or.inl ⟨by rw [h4]; decide, recordingUpdate e,
      recordingUpdate_cid e, recordingUpdate_idem e, fun s => ⟨?_, ?_⟩⟩)
    · rw [show processEvent v e s = handleRecordingReady e s by
        simp [processEvent, h1, h2, h3, h4]]
      exact handleRecordingReady_eq e s
    · simp [eventOps, recordOps, h1, h2, h3, h4]
  by_cases h5 : e.event_type = "transcript.ready"
  · refine Or.inr (Or.inl ⟨by rw [h5]; decide, transcriptUpdate e,
      transcriptUpdate_cid e, transcriptUpdate_idem e, fun s => ⟨?_, ?_⟩⟩)
    · rw [show processEvent v e s = handleTranscriptReady e s by
        simp [processEvent, h1, h2, h3, h4, h5]]
      exact handleTranscriptReady_eq e s
    · simp [eventOps, recordOps, h1, h2, h3, h4, h5]
  by_cases h6 : e.event_type = "error.occurred"
  · refine Or.inr (Or.inl ⟨by rw [h6]; decide, errorUpdate e,
      errorUpdate_cid e, errorUpdate_idem e, fun s => ⟨?_, ?_⟩⟩)
    · rw [show processEvent v e s = handleErrorOccurred e s by
        simp [processEvent, h1, h2, h3, h4, h5, h6]]
      exact handleErrorOccurred_eq e s
    · simp [eventOps, recordOps, h1, h2, h3, h4, h5, h6]
  by_cases h7 : e.event_type = "participant.joined"
  · refine Or.inr (Or.inr ⟨by rw [h7]; decide, by rw [h7]; decide, fun s => ⟨?_, ?_⟩⟩)
    · simp [processEvent, h1, h2, h3, h4, h5, h6, h7, logParticipantEvent]
    · simp [eventOps, h1, h2, h3, h4, h5, h6, h7]
  by_cases h8 : e.event_type = "participant.left"
  · refine Or.inr (Or.inr ⟨by rw [h8]; decide, by rw [h8]; decide, fun s => ⟨?_, ?_⟩⟩)
    · simp [processEvent, h1, h2, h3, h4, h5, h6, h7, h8, logParticipantEvent]
    · simp [eventOps, h1, h2, h3, h4, h5, h6, h7, h8]
  cases hst : statusOf e.event_type with
  | some st =>
    refine Or.inr (Or.inl ⟨statusOf_mem _ st hst, statusUpdate st Option.none,
      statusUpdate_cid st Option.none, statusUpdate_idem st Option.none,
      fun s => ⟨?_, ?_⟩⟩)
    · rw [show processEvent v e s = updateCallStatus e st Option.none s by
        simp [processEvent, h1, h2, h3, h4, h5, h6, h7, h8, hst]]
      exact updateCallStatus_eq e st Option.none s
    · simp [eventOps, recordOps, h1, h2, h3, h4, h5, h6, h7, h8, hst]
  | none =>
    refine Or.inr (Or.inr ⟨h1, ?_, fun s => ⟨?_, ?_⟩⟩)
    · intro hmem
      simp only [recordRequiredTypes, List.mem_cons, List.mem_singleton] at hmem
      rcases hmem with h | h | h | h | h | h | h | h | h | h
      · rw [h] at hst; simp [statusOf] at hst
      · rw [h] at hst; simp [statusOf] at hst
      · exact h2 h
      · exact h3 h
      · rw [h] at hst; simp [statusOf] at hst
      · rw [h] at hst; simp [statusOf] at hst
      · rw [h] at hst; simp [statusOf] at hst
      · exact h4 h
      · exact h5 h
      · rcases h with h | h
        · exact h6 h
        · exact absurd h (by simp)
    · simp [processEvent, h1, h2, h3, h4, h5, h6, h7, h8, hst, handleUnknownEvent]
    · simp [eventOps, h1, h2, h3, h4, h5, h6, h7, h8, hst]

/-- Generic audit-log growth of one event application: the log grows by
exactly one entry when the handler reports success and by nothing when it
reports failure. -/
theorem processEvent_events_len (v : String → PhoneValidationResult)
    (e : WebhookEvent) (s : Store) :
    (processEvent v e s).1.events.length =
      s.events.length + (if (processEvent v e s).2 then 1 else 0) := by
  rcases processEvent_dispatch v e with ⟨_, hs⟩ | ⟨_, f, hcid, hidem, hs⟩ | ⟨_, _, hs⟩
  · rw [(hs s).1]
    rcases handleCallInitiated_result v e s with ⟨hok, hlen, _⟩
    simp [hok, hlen]
  · rw [(hs s).1]
    exact recordHandler_events_len f e s
  · rw [(hs s).1]
    simp

/-- Re-applying any event converges: the second application changes no call
record and no customer, reports the same outcome, and the audit log holds
one entry per successful application. -/
theorem processEvent_idem (v : String → PhoneValidationResult)
    (e : WebhookEvent) (s : Store) :
    (processEvent v e (processEvent v e s).1).1.calls = (processEvent v e s).1.calls ∧
    (processEvent v e (processEvent v e s).1).1.customers =
      (processEvent v e s).1.customers ∧
    (processEvent v e (processEvent v e s).1).2 = (processEvent v e s).2 ∧
    (processEvent v e (processEvent v e s).1).1.events.length =
      s.events.length + (if (processEvent v e s).2 then 2 else 0) := by
  have hmain : (processEvent v e (processEvent v e s).1).1.calls =
      (processEvent v e s).1.calls ∧
      (processEvent v e (processEvent v e s).1).1.customers =
        (processEvent v e s).1.customers ∧
      (processEvent v e (processEvent v e s).1).2 = (processEvent v e s).2 := by
    rcases processEvent_dispatch v e with ⟨_, hs⟩ | ⟨_, f, hcid, hidem, hs⟩ | ⟨_, _, hs⟩
    · rw [(hs (processEvent v e s).1).1, (hs s).1]
      rcases handleCallInitiated_idem v e s with ⟨hc, hcu, hok, _⟩
      exact ⟨hc, hcu, hok⟩
    · rw [(hs (processEvent v e s).1).1, (hs s).1]
      rcases recordHandler_idem f e s hcid hidem with ⟨hc, hcu, hok, _⟩
      exact ⟨hc, hcu, hok⟩
    · rw [(hs (processEvent v e s).1).1, (hs s).1]
      exact ⟨rfl, rfl, rfl⟩
  refine ⟨hmain.1, hmain.2.1, hmain.2.2, ?_⟩
  have hlen2 := processEvent_events_len v e (processEvent v e s).1
  have hlen1 := processEvent_events_len v e s
  rw [hlen2, hmain.2.2, hlen1]
  cases (processEvent v e s).2 <;> simp

/-!
The transaction write-sets coincide with the handlers.
-/

theorem execOps_recordOps (f : CallLog → CallLog) (e : WebhookEvent) (s : Store) :
    execOps (recordOps f e s) s = (recordHandler f e s).1 := by
  unfold recordOps recordHandler
  cases findCall s e.call_id <;> simp [execOps, applyOp]

theorem execOps_initOps (v : String → PhoneValidationResult)
    (e : WebhookEvent) (s : Store) :
    execOps (initOps v e s) s = (handleCallInitiated v e s).1 := by
  unfold initOps handleCallInitiated
  cases findCall s e.call_id <;>
    by_cases hp : (initiatedPhone v e).truthy <;>
      simp [hp, execOps, applyOp]

/-- The write-set of one event application, executed in full, produces the
same store as the handler itself. -/
theorem execOps_eventOps (v : String → PhoneValidationResult)
    (e : WebhookEvent) (s : Store) :
    execOps (eventOps v e s) s = (processEvent v e s).1 := by
  rcases processEvent_dispatch v e with ⟨_, hs⟩ | ⟨_, f, hcid, hidem, hs⟩ | ⟨_, _, hs⟩
  · rw [(hs s).2, (hs s).1, execOps_initOps]
  · rw [(hs s).2, (hs s).1, execOps_recordOps]
  · rw [(hs s).2, (hs s).1]
    simp [execOps, applyOp]

/-!
Normalization rejection path.
-/

theorem parse_missing_call_id (pt : String → Option Int) (now : Int)
    (p : RawPayload) (src : String)
    (h1 : p.call_id = Option.none) (h2 : p.callId = Option.none) :
    parseWebhookEvent pt now p src = Option.none := by
  unfold parseWebhookEvent
  cases hET : p.event_type <;> cases hT : p.typeTag <;> simp [h1, h2, pyOr]

theorem processWebhook_no_mutation (v : String → PhoneValidationResult)
    (pt : String → Option Int) (now : Int) (p : RawPayload) (src : String) (s : Store)
    (h : parseWebhookEvent pt now p src = Option.none) :
    (processWebhook v pt now p src s).1.calls = s.calls ∧
    (processWebhook v pt now p src s).1.customers = s.customers ∧
    (processWebhook v pt now p src s).1.events = s.events ∧
    (processWebhook v pt now p src s).2 = false := by
  unfold processWebhook logWebhook
  simp [h]

/-- Record for call `c1` created by the demonstration `call.initiated`
event. -/
def demoRecord1 : CallLog :=
  initiatedRecord evInitiated (initiatedPhone validateDemo evInitiated)

/-- Record for call `c1` after `call.initiated` and `call.completed`. -/
def demoRecord2 : CallLog := completedUpdate evCompleted demoRecord1

/-- Demonstration `call.initiated` event whose customer phone fails
validation. -/
def evInitiatedBadPhone : WebhookEvent :=
  ⟨"call.initiated", "c2", 100,
   { EventData.empty with
       customer_phone := Option.some "not-a-phone",
       customer_name := Option.some "B" }, "webhook"⟩

/-!
Claim theorems.
-/

/-- C1 (counterexample): processing `call.initiated`, `call.completed`,
then a late `call.connected` for the same call leaves the final status
`connected`, not `completed` — the claimed terminal-state guard does not
exist in `_update_call_status` (the `connected` event is still logged, so
the log holds three entries). -/
theorem completedThenConnectedEndsConnected :
    (findCall demoStore3 "c1").map CallLog.status = Option.some "connected" ∧
    (findCall demoStore3 "c1").map CallLog.status ≠ Option.some "completed" ∧
    demoStore3.events.length = 3 := by decide

/-- C1 (amended): `_update_call_status` applies the incoming status
unconditionally.  For every store holding a record for the event's call id
— whatever its current status, including the terminal statuses
`completed`, `failed`, `cancelled`, `no_answer` and `busy` — the handler
overwrites `status` with the new value (last write wins) and appends the
event to the audit log. -/
theorem statusChangeOverwritesTerminal (e : WebhookEvent) (st : String)
    (ed : Option String) (s : Store) (c : CallLog)
    (h : findCall s e.call_id = Option.some c) :
    findCall (updateCallStatus e st ed s).1 e.call_id =
      Option.some (statusUpdate st ed c) ∧
    (statusUpdate st ed c).status = st ∧
    (updateCallStatus e st ed s).1.events.length = s.events.length + 1 := by
  rw [updateCallStatus_eq, recordHandler_some _ e s c h]
  refine ⟨?_, rfl, by simp⟩
  simp only [findCall] at h ⊢
  rw [find?_updateFirstCall _ _ (statusUpdate_cid st ed) s.calls, h]
  rfl

/-- Witness for the amended C1 theorem: the `completed` record of the
demonstration store is overwritten to `connected`. -/
theorem statusChangeOverwritesTerminalWitness :
    findCall (updateCallStatus evConnected "connected" Option.none demoStore2).1 "c1" =
      Option.some (statusUpdate "connected" Option.none demoRecord2) ∧
    (statusUpdate "connected" Option.none demoRecord2).status = "connected" ∧
    (updateCallStatus evConnected "connected" Option.none demoStore2).1.events.length =
      demoStore2.events.length + 1 :=
  statusChangeOverwritesTerminal evConnected "connected" Option.none demoStore2
    demoRecord2 (by decide)

/-- C2 (counterexample): a `recording.ready` event for an unseen call id
creates no record at all — the store is left untouched and the handler
reports failure (the event is dropped, not even logged), contradicting the
claimed creation of a minimal placeholder record. -/
theorem unseenRecordingReadyCreatesNoRecord :
    (processEvent validateDemo evRecReady Store.empty).1.calls = [] ∧
    (processEvent validateDemo evRecReady Store.empty).1.events = [] ∧
    (processEvent validateDemo evRecReady Store.empty).2 = false := by decide

/-- C2 (amended): an event whose call id has no record and whose type is
not `call.initiated` creates no placeholder record: the record-requiring
handlers return the store unchanged with a failure flag, and the remaining
non-initiated types (participant events, unrecognized types) never touch
the call table; a later `call.initiated` for an existing record updates it
in place without creating a second record (upsert by call id). -/
theorem absentRecordEventBehaviour (v : String → PhoneValidationResult)
    (e : WebhookEvent) (s : Store) :
    (e.event_type ∈ recordRequiredTypes → findCall s e.call_id = Option.none →
      processEvent v e s = (s, false)) ∧
    (e.event_type ∉ recordRequiredTypes → e.event_type ≠ "call.initiated" →
      (processEvent v e s).1.calls = s.calls) ∧
    (e.event_type = "call.initiated" → ∀ c, findCall s e.call_id = Option.some c →
      (processEvent v e s).1.calls.length = s.calls.length) := by
  rcases processEvent_dispatch v e with ⟨ht, hs⟩ | ⟨hmem, f, hcid, hidem, hs⟩ | ⟨hne, hnm, hs⟩
  · refine ⟨?_, ?_, ?_⟩
    · intro hm _
      rw [ht] at hm
      exact absurd hm (by decide)
    · intro _ hne2
      exact absurd ht hne2
    · intro _ c hc
      rw [(hs s).1]
      exact handleCallInitiated_calls_len_of_found v e s c hc
  · refine ⟨?_, ?_, ?_⟩
    · intro _ hnone
      rw [(hs s).1]
      exact recordHandler_none f e s hnone
    · intro hnm2 _
      exact absurd hmem hnm2
    · intro ht _ _
      rw [ht] at hmem
      exact absurd hmem (by decide)
  · refine ⟨?_, ?_, ?_⟩
    · intro hm _
      exact absurd hm hnm
    · intro _ _
      rw [(hs s).1]
    · intro ht _ _
      exact absurd ht hne

/-- Witness for the amended C2 theorem at concrete inputs: the unseen
`recording.ready` event is dropped, a participant event leaves the call
table untouched, and a repeated `call.initiated` does not grow the call
table. -/
theorem absentRecordEventBehaviourWitness :
    processEvent validateDemo evRecReady Store.empty = (Store.empty, false) ∧
    (processEvent validateDemo evParticipant Store.empty).1.calls = Store.empty.calls ∧
    (processEvent validateDemo evInitiated demoStore1).1.calls.length =
      demoStore1.calls.length :=
  ⟨(absentRecordEventBehaviour validateDemo evRecReady Store.empty).1
      (by decide) (by decide),
   (absentRecordEventBehaviour validateDemo evParticipant Store.empty).2.1
      (by decide) (by decide),
   (absentRecordEventBehaviour validateDemo evInitiated demoStore1).2.2
      rfl demoRecord1 (by decide)⟩

/-- C3 (counterexample): processing one `call.connected` event for an
unseen call id appends no `CallEvent` row at all, contradicting the claim
that every invocation appends exactly one audit entry. -/
theorem unseenConnectedAppendsNoLogEntry :
    (processEvent validateDemo evConnUnseen Store.empty).1.events.length = 0 ∧
    (processEvent validateDemo evConnUnseen Store.empty).1.events.length ≠ 1 := by decide

/-- C3 (amended): one event application appends exactly one `CallEvent`
audit entry when the handler reports success, and none when it reports
failure (which happens exactly when a record-requiring event finds no
record). -/
theorem auditLogOnePerSuccessfulApplication (v : String → PhoneValidationResult)
    (e : WebhookEvent) (s : Store) :
    (processEvent v e s).1.events.length =
      s.events.length + (if (processEvent v e s).2 then 1 else 0) :=
  processEvent_events_len v e s

/-- C4: a raw payload carrying no call identifier under either recognized
alias (`call_id`, `callId`) is rejected by `_parse_webhook_event` under
every payload shape, and processing it mutates no call record, no customer
and no audit entry. -/
theorem missingCallIdRejected (v : String → PhoneValidationResult)
    (pt : String → Option Int) (now : Int) (p : RawPayload) (src : String) (s : Store)
    (h1 : p.call_id = Option.none) (h2 : p.callId = Option.none) :
    parseWebhookEvent pt now p src = Option.none ∧
    (processWebhook v pt now p src s).1.calls = s.calls ∧
    (processWebhook v pt now p src s).1.customers = s.customers ∧
    (processWebhook v pt now p src s).1.events = s.events ∧
    (processWebhook v pt now p src s).2 = false := by
  have hp := parse_missing_call_id pt now p src h1 h2
  rcases processWebhook_no_mutation v pt now p src s hp with ⟨a, b, c, d⟩
  exact ⟨hp, a, b, c, d⟩

/-- Witness for C4 with both payload shapes: shape A (`event_type` key) and
shape B (`type` key), each lacking both call-id aliases, are rejected with
no store mutation. -/
theorem missingCallIdRejectedWitness :
    (parseWebhookEvent parseTsDemo 0 rawNoIdA "webhook" = Option.none ∧
     (processWebhook validateDemo parseTsDemo 0 rawNoIdA "webhook" Store.empty).1.calls =
       Store.empty.calls ∧
     (processWebhook validateDemo parseTsDemo 0 rawNoIdA "webhook" Store.empty).1.customers =
       Store.empty.customers ∧
     (processWebhook validateDemo parseTsDemo 0 rawNoIdA "webhook" Store.empty).1.events =
       Store.empty.events ∧
     (processWebhook validateDemo parseTsDemo 0 rawNoIdA "webhook" Store.empty).2 = false) ∧
    (parseWebhookEvent parseTsDemo 0 rawNoIdB "webhook" = Option.none ∧
     (processWebhook validateDemo parseTsDemo 0 rawNoIdB "webhook" Store.empty).1.calls =
       Store.empty.calls ∧
     (processWebhook validateDemo parseTsDemo 0 rawNoIdB "webhook" Store.empty).1.customers =
       Store.empty.customers ∧
     (processWebhook validateDemo parseTsDemo 0 rawNoIdB "webhook" Store.empty).1.events =
       Store.empty.events ∧
     (processWebhook validateDemo parseTsDemo 0 rawNoIdB "webhook" Store.empty).2 = false) :=
  ⟨missingCallIdRejected validateDemo parseTsDemo 0 rawNoIdA "webhook" Store.empty rfl rfl,
   missingCallIdRejected validateDemo parseTsDemo 0 rawNoIdB "webhook" Store.empty rfl rfl⟩

/-- C5 (code bug): `_handle_call_initiated` stores the whole
validation-result dict as the customer phone.  `validate_phone_number`
returns a dict, which is always truthy, so `if validated_phone:
customer_phone = validated_phone` replaces the phone string with the dict
for valid and invalid numbers alike — the stored value is never the E.164
string (valid case) nor the original string (invalid case). -/
theorem validationDictStoredAsPhone :
    (findCall demoStore1 "c1").map CallLog.customer_phone =
      Option.some (PyVal.vdict ⟨true, Option.some "+15551234567", Option.none⟩) ∧
    (findCall demoStore1 "c1").map CallLog.customer_phone ≠
      Option.some (PyVal.str "+15551234567") ∧
    (findCall (processEvent validateDemo evInitiatedBadPhone Store.empty).1 "c2").map
        CallLog.customer_phone =
      Option.some (PyVal.vdict ⟨false, Option.none, Option.some "Invalid phone number"⟩) ∧
    (findCall (processEvent validateDemo evInitiatedBadPhone Store.empty).1 "c2").map
        CallLog.customer_phone ≠ Option.some (PyVal.str "not-a-phone") := by decide

/-- C6: applying `call.completed` to an existing record sets
`call_ended_at` to the event timestamp and recomputes `duration`: when
`call_started_at = T0` is present it becomes `T1 - T0` (strictly positive
when `T1 > T0`), and when `call_started_at` is absent it stays null. -/
theorem completedSetsDurationAndEndedAt (v : String → PhoneValidationResult)
    (e : WebhookEvent) (s : Store) (c : CallLog)
    (het : e.event_type = "call.completed")
    (hfind : findCall s e.call_id = Option.some c) :
    findCall (processEvent v e s).1 e.call_id = Option.some (completedUpdate e c) ∧
    (completedUpdate e c).call_ended_at = Option.some e.timestamp ∧
    (∀ t0 : Int, c.call_started_at = Option.some t0 →
      (completedUpdate e c).duration = Option.some (e.timestamp - t0) ∧
      (t0 < e.timestamp → ∃ d, (completedUpdate e c).duration = Option.some d ∧ 0 < d)) ∧
    (c.call_started_at = Option.none → (completedUpdate e c).duration = Option.none) := by
  have hpe : processEvent v e s = handleCallCompleted e s := by
    simp [processEvent, het]
  rw [hpe, handleCallCompleted_eq, recordHandler_some _ e s c hfind]
  refine ⟨?_, rfl, ?_, ?_⟩
  · simp only [findCall] at hfind ⊢
    rw [find?_updateFirstCall _ _ (completedUpdate_cid e) s.calls, hfind]
    rfl
  · intro t0 ht0
    refine ⟨by simp [completedUpdate, ht0], ?_⟩
    intro hlt
    exact ⟨e.timestamp - t0, by simp [completedUpdate, ht0], by omega⟩
  · intro h0
    simp [completedUpdate, h0]

/-- Witness for C6: the demonstration `call.completed` event at timestamp
160 against the record started at 100 yields duration 60 and sets the end
timestamp. -/
theorem completedSetsDurationAndEndedAtWitness :
    findCall (processEvent validateDemo evCompleted demoStore1).1 "c1" =
      Option.some (completedUpdate evCompleted demoRecord1) ∧
    (completedUpdate evCompleted demoRecord1).duration = Option.some 60 ∧
    (completedUpdate evCompleted demoRecord1).call_ended_at = Option.some 160 := by
  have h := completedSetsDurationAndEndedAt validateDemo evCompleted demoStore1
    demoRecord1 rfl (by decide)
  refine ⟨h.1, ?_, h.2.1⟩
  rw [(h.2.2.1 100 (by decide)).1]
  decide

/-- C7: `_schedule_webhook_retry` never pushes `retry_count` past
`max_retries`; below the cap it schedules the next attempt exactly
`retry_delay * 2 ^ retry_count` seconds out (with the incremented count,
i.e. the delay before attempt number `retryCount` is `baseDelay *
2 ^ retryCount`); at the cap it changes nothing, the sweep filter never
selects the record, and a sweep step leaves it untouched forever. -/
theorem retryCapAndBackoff (delay : Nat) (now : Int) (w : DeliveryRecord) :
    (w.retry_count ≤ w.max_retries →
      (scheduleWebhookRetry delay now w).retry_count ≤ w.max_retries) ∧
    (w.retry_count < w.max_retries →
      (scheduleWebhookRetry delay now w).retry_count = w.retry_count + 1 ∧
      (scheduleWebhookRetry delay now w).next_retry_at =
        Option.some (now + (delay * 2 ^ (w.retry_count + 1) : Nat))) ∧
    (w.retry_count = w.max_retries → scheduleWebhookRetry delay now w = w) ∧
    (w.max_retries ≤ w.retry_count → dueForRetry now w = false) ∧
    (∀ ok : Bool, w.delivered = false → w.max_retries ≤ w.retry_count →
      sweepStep ok delay now w = w) := by
  refine ⟨?_, ?_, ?_, ?_, ?_⟩
  · intro h
    unfold scheduleWebhookRetry
    split_ifs with hc
    · simpa using hc
    · exact h
  · intro h
    simp [scheduleWebhookRetry, h]
  · intro h
    simp [scheduleWebhookRetry, h]
  · intro h
    have hlt : ¬ w.retry_count < w.max_retries := not_lt.mpr h
    simp [dueForRetry, hlt]
  · intro ok _ h
    have hlt : ¬ w.retry_count < w.max_retries := not_lt.mpr h
    simp [sweepStep, dueForRetry, hlt]

/-- Witness for C7 at concrete records: a capped record (3 of 3 retries)
is never rescheduled, never selected, and untouched by the sweep; a record
below the cap gets the exponential-backoff delay 60 * 2 ^ 3 = 480. -/
theorem retryCapAndBackoffWitness :
    scheduleWebhookRetry 60 1000 ⟨3, 3, Option.none, false⟩ =
      (⟨3, 3, Option.none, false⟩ : DeliveryRecord) ∧
    dueForRetry 1000 ⟨3, 3, Option.none, false⟩ = false ∧
    (scheduleWebhookRetry 60 1000 ⟨2, 3, Option.none, false⟩).next_retry_at =
      Option.some 1480 ∧
    sweepStep false 60 1000 ⟨3, 3, Option.some 900, false⟩ =
      (⟨3, 3, Option.some 900, false⟩ : DeliveryRecord) := by
  have h1 := retryCapAndBackoff 60 1000 ⟨3, 3, Option.none, false⟩
  have h2 := retryCapAndBackoff 60 1000 ⟨2, 3, Option.none, false⟩
  have h3 := retryCapAndBackoff 60 1000 ⟨3, 3, Option.some 900, false⟩
  refine ⟨h1.2.2.1 rfl, h1.2.2.2.1 (by decide), ?_, h3.2.2.2.2 false rfl (by decide)⟩
  rw [(h2.2.1 (by decide)).2]
  norm_num

/-- C8 (counterexample): applying the same `call.completed` event twice
for an unseen call id leaves the audit log with zero entries, not the
claimed two. -/
theorem doubleCompletedUnseenLogsNothing :
    (processEvent validateDemo evCompletedUnseen
        (processEvent validateDemo evCompletedUnseen Store.empty).1).1.events.length = 0 ∧
    (processEvent validateDemo evCompletedUnseen
        (processEvent validateDemo evCompletedUnseen Store.empty).1).1.events.length ≠ 2 := by
  decide

/-- C8 (amended): applying the same canonical event twice in succession
yields the same call records and customers as applying it once, with the
same handler outcome; the audit log gains one entry per application that
succeeds — two entries when the first application succeeds, zero when
it fails (record absent for a record-requiring event type). -/
theorem doubleApplicationConverges (v : String → PhoneValidationResult)
    (e : WebhookEvent) (s : Store) :
    (processEvent v e (processEvent v e s).1).1.calls = (processEvent v e s).1.calls ∧
    (processEvent v e (processEvent v e s).1).1.customers =
      (processEvent v e s).1.customers ∧
    (processEvent v e (processEvent v e s).1).2 = (processEvent v e s).2 ∧
    (processEvent v e (processEvent v e s).1).1.events.length =
      s.events.length + (if (processEvent v e s).2 then 2 else 0) :=
  processEvent_idem v e s

/-- C9: one event application is atomic.  With a store failure injected
before any primitive write of the transaction, the durable store is either
left exactly as it was (rollback) or holds exactly the full result of the
application (commit) — never a partial subset of the writes; every
injected mid-transaction failure rolls back to the unchanged store, and
the uninterrupted transaction commits the handler's full result. -/
theorem eventApplicationAtomic (failAt : Option Nat)
    (v : String → PhoneValidationResult) (e : WebhookEvent) (s : Store) :
    ((runTx failAt (eventOps v e s) s).1 = s ∨
     (runTx failAt (eventOps v e s) s).1 = (processEvent v e s).1) ∧
    (∀ k : Nat, k < (eventOps v e s).length →
      runTx (Option.some k) (eventOps v e s) s = (s, false)) ∧
    (runTx Option.none (eventOps v e s) s).1 = (processEvent v e s).1 := by
  refine ⟨?_, ?_, ?_⟩
  · cases failAt with
    | none => exact Or.inr (execOps_eventOps v e s)
    | some k =>
      by_cases hk : k < (eventOps v e s).length
      · left
        simp [runTx, hk]
      · right
        simp [runTx, hk, execOps_eventOps]
  · intro k hk
    simp [runTx, hk]
  · simpa [runTx] using execOps_eventOps v e s

/-- Witness for C9: interrupting the `call.completed` transaction against
the demonstration store between its record update and its log append rolls
the store back unchanged. -/
theorem eventApplicationAtomicWitness :
    runTx (Option.some 1) (eventOps validateDemo evCompleted demoStore1) demoStore1 =
      (demoStore1, false) :=
  (eventApplicationAtomic (Option.some 1) validateDemo evCompleted demoStore1).2.1
    1 (by decide)

/-- C10 (code bug): `collect_daily_metrics` in `src/monitoring/metrics.py`
measures the cache entry's age with `timedelta.seconds` (the sub-day
component) instead of `total_seconds()`, so an entry stored exactly one day
before the query — far older than the 300-second TTL — is served as fresh
without recomputation, while the correct `total_seconds()` check of
`src/monitoring/collectors.py` classifies the same entry as stale. -/
theorem dayOldCacheEntryServedFresh :
    metricsCacheLookup ⟨[("daily_metrics_2025-01-01", 42, 0)]⟩
        "daily_metrics_2025-01-01" 86400 = Option.some 42 ∧
    (collectDailyMetrics (fun _ => 7) ⟨[("daily_metrics_2025-01-01", 42, 0)]⟩
        "daily_metrics_2025-01-01" 86400).1 = 42 ∧
    (collectDailyMetrics (fun _ => 7) ⟨[("daily_metrics_2025-01-01", 42, 0)]⟩
        "daily_metrics_2025-01-01" 86400).2.1 = false ∧
    isCacheValid 0 86400 = false := by decide

end CrmAI
